import Mathlib

/-!
Shallow embedding of the multi-currency ledger and debt-settlement engine
of the `ledger` repository (src/bot/services/transaction_service.py,
src/bot/services/debt_service.py, src/core/fx_rates.py,
src/models/transactions.py, src/models/debts.py, src/models/fx_rates.py).

Monetary values are modelled as exact rationals: in the source, every
monetary computation runs through Python `Decimal` built from the decimal
string of the input, so arithmetic on these values is exact decimal
arithmetic, which embeds faithfully into `ℚ`.  Database rows become Lean
structures, the session state becomes an explicit `DB` value threaded
through the operations, and raised `ValueError`s become an `Except` error
type with one constructor per distinct error message.
-/

namespace Ledger

/-- Python `int()` applied to an exact decimal value: truncation toward zero. -/
def pyTrunc (q : ℚ) : ℤ := if 0 ≤ q then ⌊q⌋ else ⌈q⌉

/-- Python `round()` on an exact decimal value: banker's rounding
(round half to even). -/
def pyRound (q : ℚ) : ℤ :=
  let f := ⌊q⌋
  let r := q - (f : ℚ)
  if r < 1 / 2 then f
  else if 1 / 2 < r then f + 1
  else if f % 2 = 0 then f else f + 1

/-- Python `round(x, 2)` on an exact decimal value. -/
def round2 (q : ℚ) : ℚ := (pyRound (q * 100) : ℚ) / 100

/-- `Transaction.to_minor_units` and `Debt.to_minor_units` (identical static
methods in src/models/transactions.py and src/models/debts.py):
`int(Decimal(str(amount)) * 100)` — the exact decimal value of the amount
times 100, truncated toward zero by `int()`. -/
def to_minor_units (amount : ℚ) : ℤ := pyTrunc (amount * 100)

/-- `TransactionTypeEnum` from src/models/transactions.py. -/
inductive TransactionTypeEnum where
  | EXPENSE
  | INCOME
  | REVERSAL
  | SETTLEMENT
deriving DecidableEq

/-- The `.value` of a `TransactionTypeEnum` member (a `str` enum whose values
are the upper-case member names). -/
def TransactionTypeEnum.val : TransactionTypeEnum → String
  | .EXPENSE => "EXPENSE"
  | .INCOME => "INCOME"
  | .REVERSAL => "REVERSAL"
  | .SETTLEMENT => "SETTLEMENT"

/-- A row of the `transactions` table (src/models/transactions.py).
Times (`at_time`) are seconds since the epoch. -/
structure Transaction where
  id : Nat
  user_id : Nat
  transaction_type : TransactionTypeEnum
  amount_minor : ℤ
  currency : String
  amount_eur : ℚ
  amount_usd : ℚ
  fx_rate_to_eur : ℚ
  fx_rate_to_usd : ℚ
  category_id : Option Nat
  note : Option String
  at_time : Nat
  related_debt_id : Option Nat
deriving DecidableEq

/-- The `Transaction.amount` property: amount in major units. -/
def Transaction.amount (t : Transaction) : ℚ := (t.amount_minor : ℚ) / 100

/-- A row of the `debts` table (src/models/debts.py). -/
structure Debt where
  id : Nat
  creditor_user_id : Nat
  debtor_user_id : Nat
  amount_minor : ℤ
  currency : String
  amount_eur : ℚ
  amount_usd : ℚ
  fx_rate_to_eur : ℚ
  fx_rate_to_usd : ℚ
  category_id : Option Nat
  note : Option String
  related_transaction_id : Option Nat
  is_settled : Bool
  created_at : Nat
deriving DecidableEq

/-- The `Debt.amount` property: amount in major units. -/
def Debt.amount (d : Debt) : ℚ := (d.amount_minor : ℚ) / 100

/-- The durable store as seen by the ledger and debt services: the
`transactions` and `debts` tables plus fresh-id counters standing for the
database's primary-key generation. -/
structure DB where
  transactions : List Transaction
  debts : List Debt
  nextTxnId : Nat
  nextDebtId : Nat
deriving DecidableEq

/-- The distinct `ValueError` messages raised by the services, one
constructor per message. -/
inductive LedgerError where
  | rateUnavailable
  | txnNotFoundOrAccessDenied
  | debtNotFound
  | notInvolvedInDebt
  | debtAlreadySettled
deriving DecidableEq

/-- An external rate oracle: for a (from, to, date) triple, the rate the
three-tier `FxRateService.get_rate` lookup would produce, or `none` when no
tier can resolve it (in which case `get_rate` raises).  The full tiered
lookup itself is embedded separately below as `get_rate`. -/
def RateOracle : Type := String → String → Nat → Option ℚ

/-- Number of seconds in a day, for turning timestamps into dates. -/
def secondsPerDay : Nat := 86400

/-- The calendar date (as a day number) of a timestamp, mirroring
`datetime.date()` in the services. -/
def dateOf (t : Nat) : Nat := t / secondsPerDay

/-- One `FxRateService.get_rate` call seen through an oracle: same-currency
pairs return exactly 1 without consulting any tier; other pairs consult the
oracle. -/
def getRateVia (rate : RateOracle) (fromCur toCur : String) (d : Nat) : Option ℚ :=
  if fromCur = toCur then some 1 else rate fromCur toCur d

/-- `FxRateService.get_rates_for_transaction`: calls `get_rate` for
`currency → EUR` and `currency → USD` with the same target date; a raise in
either lookup propagates (here: `none`). -/
def get_rates_for_transaction (rate : RateOracle) (currency : String) (d : Nat) :
    Option (ℚ × ℚ) :=
  match getRateVia rate currency "EUR" d, getRateVia rate currency "USD" d with
  | some e, some u => some (e, u)
  | _, _ => none

/-- `TransactionService.create_transaction`: resolves both reference rates as
of the transaction date (`at_time`, defaulting to now), converts the amount
to minor units, computes both frozen reference amounts, and appends one row. -/
def create_transaction (rate : RateOracle) (uid : Nat) (amount : ℚ) (currency : String)
    (ttype : TransactionTypeEnum) (category_id : Option Nat) (note : Option String)
    (at_time : Option Nat) (now : Nat) (db : DB) : Except LedgerError (Transaction × DB) :=
  let t := at_time.getD now
  match get_rates_for_transaction rate currency (dateOf t) with
  | none => .error .rateUnavailable
  | some (re, ru) =>
      let txn : Transaction :=
        { id := db.nextTxnId
          user_id := uid
          transaction_type := ttype
          amount_minor := to_minor_units amount
          currency := currency
          amount_eur := amount * re
          amount_usd := amount * ru
          fx_rate_to_eur := re
          fx_rate_to_usd := ru
          category_id := category_id
          note := note
          at_time := t
          related_debt_id := none }
      .ok (txn, { db with
                  transactions := db.transactions ++ [txn]
                  nextTxnId := db.nextTxnId + 1 })

/-- `TransactionService.reverse_transaction`: one query filters on both the
id and the owning user (a miss on either raises the single merged
"Transaction not found or access denied" error); on a hit it appends a new
REVERSAL row copying the stored amount, currency, frozen reference amounts
and recorded rates of the original, recomputing nothing and touching no
existing row.  No rate oracle is consulted at all. -/
def reverse_transaction (tid uid : Nat) (now : Nat) (db : DB) :
    Except LedgerError (Transaction × DB) :=
  match db.transactions.find? (fun t => decide (t.id = tid ∧ t.user_id = uid)) with
  | none => .error .txnNotFoundOrAccessDenied
  | some original =>
      let reversal : Transaction :=
        { id := db.nextTxnId
          user_id := uid
          transaction_type := .REVERSAL
          amount_minor := original.amount_minor
          currency := original.currency
          amount_eur := original.amount_eur
          amount_usd := original.amount_usd
          fx_rate_to_eur := original.fx_rate_to_eur
          fx_rate_to_usd := original.fx_rate_to_usd
          category_id := original.category_id
          note := some "Reversal of transaction"
          at_time := now
          related_debt_id := none }
      .ok (reversal, { db with
                       transactions := db.transactions ++ [reversal]
                       nextTxnId := db.nextTxnId + 1 })

/-- The guard the /undo handler (src/bot/handlers/history.py) runs before
calling `reverse_transaction`: `transaction_type.value == "reversal"`,
comparing the enum's value against the lower-case literal. -/
def undoHandlerBlocks (t : Transaction) : Bool :=
  t.transaction_type.val == "reversal"

/-- `DebtService.create_debt`: resolves both reference rates as of today,
converts the amount to minor units, computes both frozen reference amounts,
and appends one debt row with `is_settled` initialised false.  The source
performs no comparison of creditor against debtor. -/
def create_debt (rate : RateOracle) (creditor debtor : Nat) (amount : ℚ) (currency : String)
    (category_id : Option Nat) (note : Option String) (related_transaction_id : Option Nat)
    (now : Nat) (db : DB) : Except LedgerError (Debt × DB) :=
  match get_rates_for_transaction rate currency (dateOf now) with
  | none => .error .rateUnavailable
  | some (re, ru) =>
      let d : Debt :=
        { id := db.nextDebtId
          creditor_user_id := creditor
          debtor_user_id := debtor
          amount_minor := to_minor_units amount
          currency := currency
          amount_eur := amount * re
          amount_usd := amount * ru
          fx_rate_to_eur := re
          fx_rate_to_usd := ru
          category_id := category_id
          note := note
          related_transaction_id := related_transaction_id
          is_settled := false
          created_at := now }
      .ok (d, { db with
                debts := db.debts ++ [d]
                nextDebtId := db.nextDebtId + 1 })

/-- `DebtService.settle_debt`: loads the debt by id (`NotFound` on a miss),
rejects a caller who is neither creditor nor debtor (`AccessDenied`), rejects
an already settled debt (`AlreadySettled`); otherwise creates a SETTLEMENT
transaction for the acting user via `create_transaction` with the debt's
major-unit amount and currency (and the debt's category), then sets the new
transaction's `related_debt_id` to the debt and marks the debt settled. -/
def settle_debt (rate : RateOracle) (debt_id uid : Nat) (now : Nat) (db : DB) :
    Except LedgerError (Transaction × DB) :=
  match db.debts.find? (fun d => decide (d.id = debt_id)) with
  | none => .error .debtNotFound
  | some debt =>
      if debt.creditor_user_id ≠ uid ∧ debt.debtor_user_id ≠ uid then
        .error .notInvolvedInDebt
      else if debt.is_settled then
        .error .debtAlreadySettled
      else
        match create_transaction rate uid debt.amount debt.currency .SETTLEMENT
            debt.category_id (some "Settlement of debt") none now db with
        | .error e => .error e
        | .ok (tx, db1) =>
            let tx2 := { tx with related_debt_id := some debt_id }
            .ok (tx2, { db1 with
                        transactions := db1.transactions.map
                          (fun t => if t.id = tx.id then tx2 else t)
                        debts := db1.debts.map
                          (fun d => if d.id = debt_id then { d with is_settled := true } else d) })

/-- The filter of `DebtService.calculate_net_debts`: unsettled debts whose
creditor/debtor are the two users in either direction. -/
def mutualDebtFilter (u1 u2 : Nat) (d : Debt) : Bool :=
  d.is_settled = false ∧
    ((d.creditor_user_id = u1 ∧ d.debtor_user_id = u2) ∨
     (d.creditor_user_id = u2 ∧ d.debtor_user_id = u1))

/-- The base-currency reading of a debt inside `calculate_net_debts`:
`amount_eur` when the base currency is EUR, else `amount_usd`. -/
def baseAmount (base : String) (d : Debt) : ℚ :=
  if base = "EUR" then d.amount_eur else d.amount_usd

/-- The accumulation loop of `calculate_net_debts`: a left fold over the
filtered debts; a debt with creditor u1 and debtor u2 adds its base amount to
`total_user2_owes`, otherwise a debt with creditor u2 and debtor u1 adds to
`total_user1_owes` (first component: user1 owes; second: user2 owes). -/
def netTotals (u1 u2 : Nat) (base : String) (debts : List Debt) : ℚ × ℚ :=
  debts.foldl
    (fun acc d =>
      if d.creditor_user_id = u1 ∧ d.debtor_user_id = u2 then
        (acc.1, acc.2 + baseAmount base d)
      else if d.creditor_user_id = u2 ∧ d.debtor_user_id = u1 then
        (acc.1 + baseAmount base d, acc.2)
      else acc)
    (0, 0)

/-- Result record of `calculate_net_debts`. -/
structure NetCalc where
  net_amount : ℚ
  debts_to_cancel : List Debt
  total_user1_owes : ℚ
  total_user2_owes : ℚ
deriving DecidableEq

/-- `DebtService.calculate_net_debts`: loads the unsettled debts between the
two users in either direction, reads each one's frozen base-currency amount,
sums the two directions separately, and returns the net
`total_user1_owes − total_user2_owes` (positive: user1 owes user2).  A pure
query: it takes the store and returns a value, committing nothing. -/
def calculate_net_debts (u1 u2 : Nat) (base : String) (db : DB) : NetCalc :=
  let debts := db.debts.filter (mutualDebtFilter u1 u2)
  let t := netTotals u1 u2 base debts
  { net_amount := t.1 - t.2
    debts_to_cancel := debts
    total_user1_owes := t.1
    total_user2_owes := t.2 }

/-- `DebtService.cancel_mutual_debts`: runs `calculate_net_debts`, marks every
debt it returned settled, and, only when the absolute net amount exceeds the
fixed 0.01 threshold, creates via `create_debt` exactly one new debt in the
base currency for the net amount (the absolute value in the negative case),
oriented so the net-owing user is the debtor.  Returns the cancelled debt ids
and the optional new net debt. -/
def cancel_mutual_debts (rate : RateOracle) (u1 u2 : Nat) (base : String) (now : Nat)
    (db : DB) : Except LedgerError ((List Nat × Option Debt) × DB) :=
  let c := calculate_net_debts u1 u2 base db
  let cancelledIds := c.debts_to_cancel.map (fun d => d.id)
  let db1 : DB := { db with
    debts := db.debts.map
      (fun d => if mutualDebtFilter u1 u2 d then { d with is_settled := true } else d) }
  if abs c.net_amount > 1 / 100 then
    let cred := if c.net_amount > 0 then u2 else u1
    let deb := if c.net_amount > 0 then u1 else u2
    let amt := if c.net_amount > 0 then c.net_amount else abs c.net_amount
    match create_debt rate cred deb amt base none (some "Net debt") none now db1 with
    | .error e => .error e
    | .ok (nd, db2) => .ok ((cancelledIds, some nd), db2)
  else
    .ok ((cancelledIds, none), db1)

/-- A row of the `categories` table as the report join sees it
(src/models/categories.py: id, name, icon). -/
structure Category where
  id : Nat
  name : String
  icon : String
deriving DecidableEq

/-- Category loookup by id against the categories table. -/
def catLookup (cats : List Category) (cid : Nat) : Option Category :=
  cats.find? (fun c => decide (c.id = cid))

/-- The per-kind report query of `TransactionService.get_monthly_report`: the
user's transactions of one type with `start ≤ at_time < end`, inner-joined on
their category (transactions without a resolvable category drop out of the
join). -/
def reportJoin (cats : List Category) (db : DB) (uid : Nat) (ty : TransactionTypeEnum)
    (s e : Nat) : List (Transaction × Category) :=
  db.transactions.filterMap (fun t =>
    if t.user_id = uid ∧ t.transaction_type = ty ∧ s ≤ t.at_time ∧ t.at_time < e then
      match t.category_id with
      | some cid => (catLookup cats cid).map (fun c => (t, c))
      | none => none
    else none)

/-- Python `str.upper()` as the report branching uses it, written over the
character list so that it evaluates inside the kernel. -/
def strUpper (s : String) : String := ⟨s.data.map Char.toUpper⟩

/-- The aggregated column of the report: `amount_usd` when the display
currency upper-cases to USD, else `amount_eur`. -/
def reportField (display : String) (t : Transaction) : ℚ :=
  if strUpper display = "USD" then t.amount_usd else t.amount_eur

/-- The reference currency the report sums in. -/
def reportBase (display : String) : String :=
  if strUpper display = "USD" then "USD" else "EUR"

/-- Pre-conversion total of one transaction type over the period (the sum of
the grouped rows the SQL query returns). -/
def typeTotal (cats : List Category) (db : DB) (uid : Nat) (ty : TransactionTypeEnum)
    (s e : Nat) (display : String) : ℚ :=
  ((reportJoin cats db uid ty s e).map (fun p => reportField display p.1)).sum

/-- Pre-conversion total of one grouped report row, keyed by category name
and icon exactly as the SQL GROUP BY is. -/
def catTotal (cats : List Category) (db : DB) (uid : Nat) (ty : TransactionTypeEnum)
    (s e : Nat) (display : String) (cname cicon : String) : ℚ :=
  (((reportJoin cats db uid ty s e).filter
      (fun p => decide (p.2.name = cname ∧ p.2.icon = cicon))).map
    (fun p => reportField display p.1)).sum

/-- The totals block of a report. -/
structure ReportTotals where
  expenses : ℚ
  income : ℚ
  balance : ℚ
deriving DecidableEq

/-- The totals of `TransactionService.get_monthly_report` over the month
period `[s, e)`: sums the reference-currency column for EXPENSE and INCOME,
then applies one conversion step from the reference currency to the display
currency (identity when they already match; a final `get_rate` as of today
otherwise, whose failure propagates). -/
def monthlyReportTotals (rate : RateOracle) (cats : List Category) (uid : Nat)
    (display : String) (s e now : Nat) (db : DB) : Option ReportTotals :=
  let te := typeTotal cats db uid .EXPENSE s e display
  let ti := typeTotal cats db uid .INCOME s e display
  let conv? := if strUpper display = reportBase display then some 1
               else getRateVia rate (reportBase display) display (dateOf now)
  conv?.map (fun conv =>
    { expenses := te * conv, income := ti * conv, balance := (ti - te) * conv })

/-- One grouped row of `get_monthly_report` after display conversion. -/
def monthlyReportCatAmount (rate : RateOracle) (cats : List Category) (uid : Nat)
    (display : String) (s e now : Nat) (db : DB) (ty : TransactionTypeEnum)
    (cname cicon : String) : Option ℚ :=
  let conv? := if strUpper display = reportBase display then some 1
               else getRateVia rate (reportBase display) display (dateOf now)
  conv?.map (fun conv => catTotal cats db uid ty s e display cname cicon * conv)

/-- A row of the `fx_rates` table (src/models/fx_rates.py): `currency` is the
from-currency, `base` the to-currency. -/
structure FxRate where
  currency : String
  base : String
  rate : ℚ
  date : Nat
deriving DecidableEq

/-- The state `FxRateService` works against: the Redis cache keyed by
`(from, to, date)`, the durable `fx_rates` table, and the external rate API
(a function returning the live rate, or `none` when the call fails). -/
structure FxState where
  cache : List (String × String × Nat × ℚ)
  store : List FxRate
  api : String → String → Option ℚ

/-- Redis cache lookup on the exact `(from, to, date)` key. -/
def cacheGet (st : FxState) (f t : String) (d : Nat) : Option ℚ :=
  (st.cache.find? (fun e => decide (e.1 = f ∧ e.2.1 = t ∧ e.2.2.1 = d))).map
    (fun e => e.2.2.2)

/-- Redis cache write. -/
def cachePut (st : FxState) (f t : String) (d : Nat) (r : ℚ) : FxState :=
  { st with cache := (f, t, d, r) :: st.cache }

/-- Durable-store lookup of `FxRateService._get_from_db`: among the rows for
the pair with `date ≤ target_date`, the one with the greatest date
(ORDER BY date DESC LIMIT 1). -/
def storeGet (st : FxState) (f t : String) (d : Nat) : Option FxRate :=
  (st.store.filter (fun r => decide (r.currency = f ∧ r.base = t ∧ r.date ≤ d))).foldl
    (fun acc r =>
      match acc with
      | none => some r
      | some b => if r.date > b.date then some r else acc)
    none

/-- Durable-store write of `FxRateService._save_to_db`. -/
def storePut (st : FxState) (f t : String) (d : Nat) (r : ℚ) : FxState :=
  { st with store := st.store ++ [{ currency := f, base := t, rate := r, date := d }] }

/-- `FxRateService.get_rate`: same-currency pairs return exactly 1; otherwise
cache, then durable store (writing a hit back to the cache), then the
external API (writing a hit to both cache and store); raises when all three
tiers miss. -/
def get_rate (f t : String) (d : Nat) (st : FxState) : Except LedgerError (ℚ × FxState) :=
  if f = t then .ok (1, st)
  else
    match cacheGet st f t d with
    | some r => .ok (r, st)
    | none =>
        match storeGet st f t d with
        | some fr => .ok (fr.rate, cachePut st f t d fr.rate)
        | none =>
            match st.api f t with
            | some r => .ok (r, storePut (cachePut st f t d r) f t d r)
            | none => .error .rateUnavailable

/-- All rates held by the three tiers are positive. -/
def FxState.positiveRates (st : FxState) : Prop :=
  (∀ e ∈ st.cache, 0 < e.2.2.2) ∧ (∀ r ∈ st.store, 0 < r.rate) ∧
    (∀ f t r, st.api f t = some r → 0 < r)

/-- Modelled from the spec: the totals the specification describes for
`calculateNetDebts` — the sum, over the unsettled debts where `payee` is
the creditor and `payer` the debtor, of the frozen reference amount in the
base currency. -/
def owesTotal (payer payee : Nat) (base : String) (db : DB) : ℚ :=
  ((db.debts.filter (fun d =>
      decide (d.is_settled = false ∧
        d.creditor_user_id = payee ∧ d.debtor_user_id = payer))).map
    (baseAmount base)).sum

/-! Arithmetic helper lemmas about the Python numeric primitives. -/

theorem pyTrunc_intCast (m : ℤ) : pyTrunc (m : ℚ) = m := by
  unfold pyTrunc
  split <;> simp

theorem pyRound_intCast (m : ℤ) : pyRound (m : ℚ) = m := by
  unfold pyRound
  simp only [Int.floor_intCast, sub_self]
  norm_num

theorem div_hundred_mul_hundred (q : ℚ) : q / 100 * 100 = q := by
  field_simp

theorem to_minor_units_of_cents (k : ℤ) : to_minor_units ((k : ℚ) / 100) = k := by
  unfold to_minor_units
  rw [div_hundred_mul_hundred, pyTrunc_intCast]

theorem round2_of_cents (k : ℤ) : round2 ((k : ℚ) / 100) = (k : ℚ) / 100 := by
  unfold round2
  rw [div_hundred_mul_hundred, pyRound_intCast]

/-! Concrete fixtures used by counterexamples and witnesses. -/

/-- A rate oracle resolving only EUR → USD, at 1.10. -/
def rateEurUsd : RateOracle := fun f t _ =>
  if f = "EUR" ∧ t = "USD" then some (11 / 10) else none

/-- An oracle on which every lookup fails. -/
def rateNone : RateOracle := fun _ _ _ => none

/-- An expense of 5.00 RSD recorded at rates 1/117 (EUR) and 1/100 (USD). -/
def txW : Transaction :=
  { id := 10, user_id := 1, transaction_type := .EXPENSE, amount_minor := 500,
    currency := "RSD", amount_eur := 5 / 117, amount_usd := 5 / 100,
    fx_rate_to_eur := 1 / 117, fx_rate_to_usd := 1 / 100,
    category_id := some 1, note := none, at_time := 100, related_debt_id := none }

/-- A store holding just `txW`. -/
def dbW : DB := { transactions := [txW], debts := [], nextTxnId := 11, nextDebtId := 0 }

/-- A REVERSAL transaction owned by user 1. -/
def txRev : Transaction :=
  { id := 10, user_id := 1, transaction_type := .REVERSAL, amount_minor := 500,
    currency := "RSD", amount_eur := 5 / 117, amount_usd := 5 / 100,
    fx_rate_to_eur := 1 / 117, fx_rate_to_usd := 1 / 100,
    category_id := some 1, note := some "Reversal of transaction", at_time := 150,
    related_debt_id := none }

/-- A store holding just the REVERSAL `txRev`. -/
def dbRev : DB := { transactions := [txRev], debts := [], nextTxnId := 11, nextDebtId := 0 }

/-- The empty store. -/
def dbEmpty : DB := { transactions := [], debts := [], nextTxnId := 0, nextDebtId := 0 }

/-! Claim theorems. -/

/-- C3: for a transaction of the requesting account, `reverse_transaction`
appends a new REVERSAL transaction whose amount, currency, reference-currency
amounts and recorded exchange rates equal the original's stored values (the
definition of `reverse_transaction` consults no rate oracle, so nothing is
recomputed from current rates), leaves every existing row unchanged, and
fails with the merged NotFound/AccessDenied error exactly when no stored
transaction has the requested id and owner. -/
theorem reverse_transaction_correct (tid uid now : Nat) (db : DB) :
    (∀ original,
        db.transactions.find? (fun t => decide (t.id = tid ∧ t.user_id = uid)) =
          some original →
        ∃ r db2, reverse_transaction tid uid now db = .ok (r, db2) ∧
          r.transaction_type = .REVERSAL ∧
          r.amount_minor = original.amount_minor ∧
          r.currency = original.currency ∧
          r.amount_eur = original.amount_eur ∧
          r.amount_usd = original.amount_usd ∧
          r.fx_rate_to_eur = original.fx_rate_to_eur ∧
          r.fx_rate_to_usd = original.fx_rate_to_usd ∧
          db2.transactions = db.transactions ++ [r] ∧
          db2.debts = db.debts) ∧
    ((∀ t ∈ db.transactions, ¬(t.id = tid ∧ t.user_id = uid)) →
        reverse_transaction tid uid now db = .error .txnNotFoundOrAccessDenied) := by
  constructor
  · intro original hfind
    unfold reverse_transaction
    rw [hfind]
    exact ⟨_, _, rfl, rfl, rfl, rfl, rfl, rfl, rfl, rfl, rfl, rfl⟩
  · intro h
    have hnone : db.transactions.find?
        (fun t => decide (t.id = tid ∧ t.user_id = uid)) = none := by
      rw [List.find?_eq_none]
      intro t ht
      simpa using h t ht
    unfold reverse_transaction
    rw [hnone]

/-- Witness for C3 at a concrete store: reversing `txW` succeeds and the
reversal carries `txW`'s stored amount and frozen EUR conversion. -/
theorem reverse_transaction_correct_witness :
    ∃ r db2, reverse_transaction 10 1 200 dbW = .ok (r, db2) ∧
      r.amount_minor = txW.amount_minor ∧ r.amount_eur = txW.amount_eur := by
  obtain ⟨r, db2, hok, _, h1, _, h2, _⟩ :=
    (reverse_transaction_correct 10 1 200 dbW).1 txW (by rfl)
  exact ⟨r, db2, hok, h1, h2⟩

/-- C5 (code bug): the service performs no check on the original's kind, so
reversing a REVERSAL succeeds and appends yet another REVERSAL; moreover the
guard the /undo handler runs first (`transaction_type.value == "reversal"`)
compares the upper-case enum value against a lower-case literal and is false
even on a REVERSAL transaction, so nothing blocks the call. -/
theorem reverse_of_reversal_succeeds :
    undoHandlerBlocks txRev = false ∧
    ∃ r db2, reverse_transaction 10 1 300 dbRev = .ok (r, db2) ∧
      r.transaction_type = .REVERSAL ∧
      db2.transactions = dbRev.transactions ++ [r] := by
  exact ⟨rfl, _, _, rfl, rfl, rfl⟩

/-- Counterexample to C6: `create_debt` with creditor = debtor = 7 does not
fail — it returns the persisted debt, which violates creditor ≠ debtor. -/
theorem create_debt_self_not_rejected :
    ∃ d db2, create_debt rateEurUsd 7 7 5 "EUR" none none none 0 dbEmpty = .ok (d, db2) ∧
      d.creditor_user_id = d.debtor_user_id ∧ db2.debts = [d] := by
  exact ⟨_, _, rfl, rfl, rfl⟩

/-- C6 as amended: `create_debt` performs no creditor/debtor comparison at
all — whenever the rates resolve it succeeds for every pair, including
creditor = debtor, and persists the debt exactly as given, so the
creditor ≠ debtor invariant is not enforced. -/
theorem create_debt_no_validation (rate : RateOracle) (creditor debtor : Nat)
    (amount : ℚ) (currency : String) (cid : Option Nat) (note rel : Option _)
    (now : Nat) (db : DB) (re ru : ℚ)
    (hr : get_rates_for_transaction rate currency (dateOf now) = some (re, ru)) :
    ∃ d db2, create_debt rate creditor debtor amount currency cid note rel now db =
        .ok (d, db2) ∧
      d.creditor_user_id = creditor ∧ d.debtor_user_id = debtor ∧
      d.is_settled = false ∧ d.amount_minor = to_minor_units amount ∧
      d.currency = currency ∧ d.amount_eur = amount * re ∧ d.amount_usd = amount * ru ∧
      db2.debts = db.debts ++ [d] ∧ db2.transactions = db.transactions := by
  unfold create_debt
  rw [hr]
  exact ⟨_, _, rfl, rfl, rfl, rfl, rfl, rfl, rfl, rfl, rfl, rfl⟩

/-- Witness for the amended C6: a self-debt (creditor = debtor = 7) is
created and persisted. -/
theorem create_debt_no_validation_witness :
    ∃ d db2, create_debt rateEurUsd 7 7 5 "EUR" none none none 0 dbEmpty = .ok (d, db2) ∧
      d.creditor_user_id = 7 ∧ d.debtor_user_id = 7 ∧ d.is_settled = false := by
  obtain ⟨d, db2, hok, h1, h2, h3, _⟩ :=
    create_debt_no_validation rateEurUsd 7 7 5 "EUR" none none none 0 dbEmpty 1 (11 / 10)
      (by rfl)
  exact ⟨d, db2, hok, h1, h2, h3⟩

/-- C9: for a valid amount — the boundary validates amounts against the
pattern digits-dot-at-most-two-digits, i.e. a non-negative integer number of
cents `k` — `create_transaction` stores `amount_minor = round(amount * 100)`
(truncation and rounding agree on whole-cent values), and reading the row
back gives `amount_minor / 100 = round(amount, 2)`. -/
theorem create_transaction_minor_units (rate : RateOracle) (uid : Nat) (k : ℕ)
    (currency : String) (ttype : TransactionTypeEnum) (cid : Option Nat)
    (note : Option String) (at_time : Option Nat) (now : Nat) (db : DB) (re ru : ℚ)
    (hr : get_rates_for_transaction rate currency (dateOf (at_time.getD now)) =
      some (re, ru)) :
    ∃ tx db2,
      create_transaction rate uid ((k : ℚ) / 100) currency ttype cid note at_time now db =
        .ok (tx, db2) ∧
      tx.amount_minor = pyRound ((k : ℚ) / 100 * 100) ∧
      (tx.amount_minor : ℚ) / 100 = round2 ((k : ℚ) / 100) ∧
      db2.transactions = db.transactions ++ [tx] := by
  unfold create_transaction
  dsimp only
  rw [hr]
  refine ⟨_, _, rfl, ?_, ?_, rfl⟩
  · show to_minor_units ((k : ℚ) / 100) = pyRound ((k : ℚ) / 100 * 100)
    rw [div_hundred_mul_hundred]
    rw [show ((k : ℚ)) = ((k : ℤ) : ℚ) by push_cast; ring]
    rw [to_minor_units_of_cents, pyRound_intCast]
  · show ((to_minor_units ((k : ℚ) / 100) : ℤ) : ℚ) / 100 = round2 ((k : ℚ) / 100)
    rw [show ((k : ℚ)) = ((k : ℤ) : ℚ) by push_cast; ring]
    rw [to_minor_units_of_cents, round2_of_cents]

/-- Witness for C9: creating a 12.34 EUR transaction stores 1234 minor units
and reads back as 12.34. -/
theorem create_transaction_minor_units_witness :
    ∃ tx db2,
      create_transaction rateEurUsd 1 ((1234 : ℚ) / 100) "EUR" .EXPENSE (some 1) none
          none 0 dbEmpty = .ok (tx, db2) ∧
      tx.amount_minor = pyRound ((1234 : ℚ) / 100 * 100) ∧
      (tx.amount_minor : ℚ) / 100 = round2 ((1234 : ℚ) / 100) := by
  obtain ⟨tx, db2, hok, h1, h2, _⟩ :=
    create_transaction_minor_units rateEurUsd 1 1234 "EUR" .EXPENSE (some 1) none none 0
      dbEmpty 1 (11 / 10) (by rfl)
  exact ⟨tx, db2, hok, h1, h2⟩

/-- The one category of the C4 scenario. -/
def catFood : Category := { id := 1, name := "Food", icon := "F" }

/-- A 100.00 EUR categorised expense at time 10. -/
def txExp : Transaction :=
  { id := 0, user_id := 1, transaction_type := .EXPENSE, amount_minor := 10000,
    currency := "EUR", amount_eur := 100, amount_usd := 110,
    fx_rate_to_eur := 1, fx_rate_to_usd := 11 / 10,
    category_id := some 1, note := none, at_time := 10, related_debt_id := none }

/-- A store holding just the expense `txExp`. -/
def dbExp : DB := { transactions := [txExp], debts := [], nextTxnId := 1, nextDebtId := 0 }

/-- The C4 baseline store, with neither the expense nor its reversal. -/
def dbNoExp : DB := { transactions := [], debts := [], nextTxnId := 1, nextDebtId := 0 }

/-- C4 (code bug): take the expense `txExp` and reverse it at time 20, so the
month period `[0, 100)` contains both effective timestamps.  The monthly
report aggregates only EXPENSE and INCOME rows and ignores the REVERSAL
entirely, so the reversed expense still counts at full value: the EUR report
over the store holding the pair shows 100 of expenses in category Food and
balance −100, while the report over the store with neither row shows zero
everywhere — the pair does not net to zero as the documented reversal intent
requires. -/
theorem report_counts_reversed_expense :
    (∃ p, reverse_transaction 0 1 20 dbExp = .ok p ∧
      p.1.transaction_type = .REVERSAL ∧ p.1.amount_eur = 100 ∧
      monthlyReportTotals rateNone [catFood] 1 "EUR" 0 100 50 p.2 =
        some { expenses := 100, income := 0, balance := -100 } ∧
      monthlyReportCatAmount rateNone [catFood] 1 "EUR" 0 100 50 p.2 .EXPENSE
        "Food" "F" = some 100 ∧
      monthlyReportTotals rateNone [catFood] 1 "EUR" 0 100 50 p.2 ≠
        monthlyReportTotals rateNone [catFood] 1 "EUR" 0 100 50 dbNoExp) ∧
    monthlyReportTotals rateNone [catFood] 1 "EUR" 0 100 50 dbNoExp =
      some { expenses := 0, income := 0, balance := 0 } ∧
    monthlyReportCatAmount rateNone [catFood] 1 "EUR" 0 100 50 dbNoExp .EXPENSE
      "Food" "F" = some 0 := by
  refine ⟨⟨_, rfl, rfl, rfl, ?_, ?_, ?_⟩, ?_, ?_⟩ <;>
    simp [monthlyReportTotals, monthlyReportCatAmount, typeTotal, catTotal, reportJoin,
      reportField, reportBase, strUpper, catLookup, getRateVia, dateOf, secondsPerDay,
      dbExp, txExp, catFood, dbNoExp, ReportTotals.mk.injEq]

/-- Accumulator characterisation of the `calculate_net_debts` loop: for
distinct users the two accumulation branches are mutually exclusive, and the
fold adds up exactly the base amounts of the debts of each direction. -/
theorem netTotals_eq_sums (u1 u2 : Nat) (base : String) (h : u1 ≠ u2) (l : List Debt) :
    netTotals u1 u2 base l =
      (((l.filter (fun d =>
            decide (d.creditor_user_id = u2 ∧ d.debtor_user_id = u1))).map
          (baseAmount base)).sum,
       ((l.filter (fun d =>
            decide (d.creditor_user_id = u1 ∧ d.debtor_user_id = u2))).map
          (baseAmount base)).sum) := by
  have go : ∀ (l : List Debt) (acc : ℚ × ℚ),
      l.foldl
        (fun acc d =>
          if d.creditor_user_id = u1 ∧ d.debtor_user_id = u2 then
            (acc.1, acc.2 + baseAmount base d)
          else if d.creditor_user_id = u2 ∧ d.debtor_user_id = u1 then
            (acc.1 + baseAmount base d, acc.2)
          else acc)
        acc =
      (acc.1 + ((l.filter (fun d =>
            decide (d.creditor_user_id = u2 ∧ d.debtor_user_id = u1))).map
          (baseAmount base)).sum,
       acc.2 + ((l.filter (fun d =>
            decide (d.creditor_user_id = u1 ∧ d.debtor_user_id = u2))).map
          (baseAmount base)).sum) := by
    intro l
    induction l with
    | nil => intro acc; simp
    | cons d l ih =>
        intro acc
        rw [List.foldl_cons]
        by_cases h12 : d.creditor_user_id = u1 ∧ d.debtor_user_id = u2
        · have h21 : ¬(d.creditor_user_id = u2 ∧ d.debtor_user_id = u1) := by
            rintro ⟨a, _⟩
            exact h (h12.1.symm.trans a)
          rw [if_pos h12, ih,
            List.filter_cons_of_neg (by simpa using h21),
            List.filter_cons_of_pos (by simpa using h12),
            List.map_cons, List.sum_cons]
          dsimp only
          simp only [Prod.mk.injEq]
          exact ⟨trivial, by ring⟩
        · rw [if_neg h12]
          by_cases h21 : d.creditor_user_id = u2 ∧ d.debtor_user_id = u1
          · rw [if_pos h21, ih,
              List.filter_cons_of_pos (by simpa using h21),
              List.filter_cons_of_neg (by simpa using h12),
              List.map_cons, List.sum_cons]
            dsimp only
            simp only [Prod.mk.injEq]
            exact ⟨by ring, trivial⟩
          · rw [if_neg h21, ih,
              List.filter_cons_of_neg (by simpa using h21),
              List.filter_cons_of_neg (by simpa using h12)]
  rw [netTotals, go]
  simp

/-- Collapsing the double filter of `calculate_net_debts` (first the mutual
query filter, then one direction test inside the loop) into the single
unsettled-plus-direction filter the specification describes. -/
theorem filter_mutual_dir (u1 u2 p1 p2 : Nat) (l : List Debt)
    (hsub : ∀ d : Debt,
      (d.creditor_user_id = p2 ∧ d.debtor_user_id = p1) →
      ((d.creditor_user_id = u1 ∧ d.debtor_user_id = u2) ∨
       (d.creditor_user_id = u2 ∧ d.debtor_user_id = u1))) :
    (l.filter (mutualDebtFilter u1 u2)).filter (fun d =>
        decide (d.creditor_user_id = p2 ∧ d.debtor_user_id = p1)) =
    l.filter (fun d =>
        decide (d.is_settled = false ∧
          d.creditor_user_id = p2 ∧ d.debtor_user_id = p1)) := by
  rw [List.filter_filter]
  apply List.filter_congr
  intro d _
  by_cases hdir : d.creditor_user_id = p2 ∧ d.debtor_user_id = p1
  · by_cases hs : d.is_settled = false
    · have hm : mutualDebtFilter u1 u2 d = true := by
        simp only [mutualDebtFilter, decide_eq_true_eq]
        exact ⟨hs, hsub d hdir⟩
      simp [hdir, hs, hm]
    · have hm : mutualDebtFilter u1 u2 d = false := by
        simp only [mutualDebtFilter, decide_eq_false_iff_not]
        rintro ⟨a, _⟩
        exact hs a
      simp [hdir, hs, hm]
  · simp [hdir]

/-- C1: for every pair of distinct accounts, `calculate_net_debts` returns as
`debts_to_cancel` exactly the unsettled stored debts between the two accounts
in either direction, sums the two directions separately over the frozen
base-currency reference amounts (`amount_eur` when the base currency is EUR,
else `amount_usd`, which is what `baseAmount` reads), and nets them as
`total_user1_owes − total_user2_owes` (positive meaning user1 net-owes
user2).  The function is a pure query on the store: it returns a value and
no updated `DB`, so no stored state is mutated. -/
theorem calculate_net_debts_correct (u1 u2 : Nat) (base : String) (db : DB)
    (h : u1 ≠ u2) :
    (calculate_net_debts u1 u2 base db).total_user1_owes = owesTotal u1 u2 base db ∧
    (calculate_net_debts u1 u2 base db).total_user2_owes = owesTotal u2 u1 base db ∧
    (calculate_net_debts u1 u2 base db).net_amount =
      owesTotal u1 u2 base db - owesTotal u2 u1 base db ∧
    ∀ d : Debt, d ∈ (calculate_net_debts u1 u2 base db).debts_to_cancel ↔
      (d ∈ db.debts ∧ d.is_settled = false ∧
        ((d.creditor_user_id = u1 ∧ d.debtor_user_id = u2) ∨
         (d.creditor_user_id = u2 ∧ d.debtor_user_id = u1))) := by
  have h1 : (calculate_net_debts u1 u2 base db).total_user1_owes =
      owesTotal u1 u2 base db := by
    show (netTotals u1 u2 base (db.debts.filter (mutualDebtFilter u1 u2))).1 = _
    rw [netTotals_eq_sums u1 u2 base h]
    rw [owesTotal, filter_mutual_dir u1 u2 u1 u2 db.debts (fun d hd => Or.inr hd)]
  have h2 : (calculate_net_debts u1 u2 base db).total_user2_owes =
      owesTotal u2 u1 base db := by
    show (netTotals u1 u2 base (db.debts.filter (mutualDebtFilter u1 u2))).2 = _
    rw [netTotals_eq_sums u1 u2 base h]
    rw [owesTotal, filter_mutual_dir u1 u2 u2 u1 db.debts (fun d hd => Or.inl hd)]
  refine ⟨h1, h2, ?_, ?_⟩
  · have hn : (calculate_net_debts u1 u2 base db).net_amount =
        (calculate_net_debts u1 u2 base db).total_user1_owes -
          (calculate_net_debts u1 u2 base db).total_user2_owes := rfl
    rw [hn, h1, h2]
  · intro d
    show d ∈ db.debts.filter (mutualDebtFilter u1 u2) ↔ _
    rw [List.mem_filter]
    simp [mutualDebtFilter]

/-- The specification's net-debt example: user1 owes user2 100 EUR-equiv and
user2 owes user1 30 EUR-equiv, both unsettled. -/
def dbNet : DB :=
  { transactions := [], nextTxnId := 0, nextDebtId := 2,
    debts :=
      [{ id := 0, creditor_user_id := 2, debtor_user_id := 1, amount_minor := 10000,
         currency := "EUR", amount_eur := 100, amount_usd := 110,
         fx_rate_to_eur := 1, fx_rate_to_usd := 11 / 10, category_id := none,
         note := none, related_transaction_id := none, is_settled := false,
         created_at := 0 },
       { id := 1, creditor_user_id := 1, debtor_user_id := 2, amount_minor := 3000,
         currency := "EUR", amount_eur := 30, amount_usd := 33,
         fx_rate_to_eur := 1, fx_rate_to_usd := 11 / 10, category_id := none,
         note := none, related_transaction_id := none, is_settled := false,
         created_at := 1 }] }

/-- Witness for C1 at the specification's own example: the code's net amount
equals the specified difference of directional totals, and both come out as
70 (user1 net-owes user2 70). -/
theorem calculate_net_debts_correct_witness :
    (calculate_net_debts 1 2 "EUR" dbNet).net_amount =
        owesTotal 1 2 "EUR" dbNet - owesTotal 2 1 "EUR" dbNet ∧
    (calculate_net_debts 1 2 "EUR" dbNet).net_amount = 70 := by
  refine ⟨(calculate_net_debts_correct 1 2 "EUR" dbNet (by decide)).2.2.1, ?_⟩
  simp [calculate_net_debts, netTotals, mutualDebtFilter, baseAmount, dbNet]
  norm_num

/-- The conversion `Debt.amount` → minor units round-trips: settling passes
the debt's major-unit amount back through `to_minor_units`. -/
theorem to_minor_units_amount (d : Debt) : to_minor_units d.amount = d.amount_minor :=
  to_minor_units_of_cents d.amount_minor

/-- Replacing by id is the identity on a list whose ids all differ from the
replaced id. -/
theorem map_ite_id_of_fresh (l : List Transaction) (n : Nat) (tx2 : Transaction)
    (hfresh : ∀ t ∈ l, t.id ≠ n) :
    l.map (fun t => if t.id = n then tx2 else t) = l := by
  induction l with
  | nil => rfl
  | cons a l ih =>
      rw [List.map_cons, if_neg (hfresh a (by simp)), ih (fun t ht => hfresh t (by simp [ht]))]

/-- Success-path characterisation of `settle_debt`, shared by the theorems
about the settlement transaction: with the debt found, the caller involved,
the debt unsettled, the rates for the debt's currency resolvable as of the
settlement date, and the store's transaction ids fresh, settlement returns a
SETTLEMENT transaction for the acting user carrying the debt's stored minor
amount and currency, reference amounts recomputed from the settlement-date
rates, linked to the debt, with the one debt marked settled. -/
theorem settle_debt_ok_spec (rate : RateOracle) (did uid now : Nat) (db : DB)
    (debt : Debt)
    (hfind : db.debts.find? (fun d => decide (d.id = did)) = some debt)
    (hinv : debt.creditor_user_id = uid ∨ debt.debtor_user_id = uid)
    (hset : debt.is_settled = false)
    (re ru : ℚ)
    (hr : get_rates_for_transaction rate debt.currency (dateOf now) = some (re, ru))
    (hfresh : ∀ t ∈ db.transactions, t.id ≠ db.nextTxnId) :
    ∃ tx db2, settle_debt rate did uid now db = .ok (tx, db2) ∧
      tx.transaction_type = .SETTLEMENT ∧ tx.user_id = uid ∧
      tx.amount_minor = debt.amount_minor ∧ tx.currency = debt.currency ∧
      tx.amount_eur = debt.amount * re ∧ tx.amount_usd = debt.amount * ru ∧
      tx.fx_rate_to_eur = re ∧ tx.fx_rate_to_usd = ru ∧
      tx.related_debt_id = some did ∧
      db2.transactions = db.transactions ++ [tx] ∧
      db2.debts = db.debts.map
        (fun d => if d.id = did then { d with is_settled := true } else d) := by
  have hna : ¬(debt.creditor_user_id ≠ uid ∧ debt.debtor_user_id ≠ uid) := by
    rcases hinv with h | h
    · exact fun hc => hc.1 h
    · exact fun hc => hc.2 h
  unfold settle_debt
  rw [hfind]
  dsimp only
  rw [if_neg hna, if_neg (by simp [hset])]
  unfold create_transaction
  dsimp only
  simp only [Option.getD_none]
  rw [hr]
  dsimp only
  refine ⟨_, _, rfl, rfl, rfl, to_minor_units_amount debt, rfl, rfl, rfl, rfl, rfl, rfl,
    ?_, rfl⟩
  rw [List.map_append, map_ite_id_of_fresh db.transactions db.nextTxnId _ hfresh]
  simp

/-- C7: `settle_debt` fails with NotFound when no stored debt has the id,
with AccessDenied when the acting user is neither creditor nor debtor, and
with AlreadySettled when the debt's `is_settled` flag is set; on success
(rates resolvable, store ids fresh) it appends exactly one SETTLEMENT
transaction for the acting user whose minor amount and currency match the
debt, links it to the debt through `related_debt_id`, and marks the one debt
settled. -/
theorem settle_debt_correct (rate : RateOracle) (did uid now : Nat) (db : DB) :
    ((∀ d ∈ db.debts, d.id ≠ did) →
      settle_debt rate did uid now db = .error .debtNotFound) ∧
    (∀ debt, db.debts.find? (fun d => decide (d.id = did)) = some debt →
      ((debt.creditor_user_id ≠ uid ∧ debt.debtor_user_id ≠ uid) →
        settle_debt rate did uid now db = .error .notInvolvedInDebt) ∧
      ((debt.creditor_user_id = uid ∨ debt.debtor_user_id = uid) →
        debt.is_settled = true →
        settle_debt rate did uid now db = .error .debtAlreadySettled) ∧
      (∀ re ru, (debt.creditor_user_id = uid ∨ debt.debtor_user_id = uid) →
        debt.is_settled = false →
        get_rates_for_transaction rate debt.currency (dateOf now) = some (re, ru) →
        (∀ t ∈ db.transactions, t.id ≠ db.nextTxnId) →
        ∃ tx db2, settle_debt rate did uid now db = .ok (tx, db2) ∧
          tx.transaction_type = .SETTLEMENT ∧ tx.user_id = uid ∧
          tx.amount_minor = debt.amount_minor ∧ tx.currency = debt.currency ∧
          tx.related_debt_id = some did ∧
          db2.transactions = db.transactions ++ [tx] ∧
          db2.debts = db.debts.map
            (fun d => if d.id = did then { d with is_settled := true } else d))) := by
  refine ⟨?_, ?_⟩
  · intro h
    have hnone : db.debts.find? (fun d => decide (d.id = did)) = none := by
      rw [List.find?_eq_none]
      intro d hd
      simpa using h d hd
    unfold settle_debt
    rw [hnone]
  · intro debt hfind
    refine ⟨?_, ?_, ?_⟩
    · intro hacc
      unfold settle_debt
      rw [hfind]
      dsimp only
      rw [if_pos hacc]
    · intro hinv hsettled
      have hna : ¬(debt.creditor_user_id ≠ uid ∧ debt.debtor_user_id ≠ uid) := by
        rcases hinv with h | h
        · exact fun hc => hc.1 h
        · exact fun hc => hc.2 h
      unfold settle_debt
      rw [hfind]
      dsimp only
      rw [if_neg hna, if_pos hsettled]
    · intro re ru hinv hset hr hfresh
      obtain ⟨tx, db2, hok, hty, huid, ham, hcur, _, _, _, _, hrel, htx, hdebts⟩ :=
        settle_debt_ok_spec rate did uid now db debt hfind hinv hset re ru hr hfresh
      exact ⟨tx, db2, hok, hty, huid, ham, hcur, hrel, htx, hdebts⟩

/-- An unsettled 50.00 EUR debt owed by user 2 to user 1. -/
def debtW : Debt :=
  { id := 3, creditor_user_id := 1, debtor_user_id := 2, amount_minor := 5000,
    currency := "EUR", amount_eur := 50, amount_usd := 55,
    fx_rate_to_eur := 1, fx_rate_to_usd := 11 / 10, category_id := none,
    note := none, related_transaction_id := none, is_settled := false, created_at := 0 }

/-- A store holding just `debtW`. -/
def dbDebt : DB := { transactions := [], debts := [debtW], nextTxnId := 0, nextDebtId := 4 }

/-- Witness for C7: the creditor settles `debtW`; a SETTLEMENT transaction
with the debt's amount and currency appears and the debt is marked settled. -/
theorem settle_debt_correct_witness :
    ∃ tx db2, settle_debt rateEurUsd 3 1 0 dbDebt = .ok (tx, db2) ∧
      tx.transaction_type = .SETTLEMENT ∧ tx.amount_minor = debtW.amount_minor ∧
      tx.currency = debtW.currency ∧ tx.related_debt_id = some 3 := by
  obtain ⟨tx, db2, hok, hty, _, ham, hcur, hrel, _, _⟩ :=
    ((settle_debt_correct rateEurUsd 3 1 0 dbDebt).2 debtW (by rfl)).2.2 1 (11 / 10)
      (Or.inl rfl) rfl (by rfl) (by simp [dbDebt])
  exact ⟨tx, db2, hok, hty, ham, hcur, hrel⟩

/-- C10: the SETTLEMENT transaction a successful `settle_debt` creates takes
only the original-currency amount (as stored minor units) and the currency
code from the debt; its recorded exchange rates are the rates looked up as of
the settlement date, and its reference amounts are recomputed as
amount × settlement-date rate, not copied from the debt's frozen
creation-time values — so whenever the recomputed EUR value differs from the
debt's frozen one, the settlement and the debt disagree in the EUR view. -/
theorem settlement_recomputes_reference (rate : RateOracle) (did uid now : Nat)
    (db : DB) (debt : Debt)
    (hfind : db.debts.find? (fun d => decide (d.id = did)) = some debt)
    (hinv : debt.creditor_user_id = uid ∨ debt.debtor_user_id = uid)
    (hset : debt.is_settled = false)
    (re ru : ℚ)
    (hr : get_rates_for_transaction rate debt.currency (dateOf now) = some (re, ru))
    (hfresh : ∀ t ∈ db.transactions, t.id ≠ db.nextTxnId) :
    ∃ tx db2, settle_debt rate did uid now db = .ok (tx, db2) ∧
      tx.fx_rate_to_eur = re ∧ tx.fx_rate_to_usd = ru ∧
      tx.amount_eur = debt.amount * re ∧ tx.amount_usd = debt.amount * ru ∧
      tx.amount_minor = debt.amount_minor ∧ tx.currency = debt.currency ∧
      (debt.amount * re ≠ debt.amount_eur → tx.amount_eur ≠ debt.amount_eur) := by
  obtain ⟨tx, db2, hok, _, _, ham, hcur, heur, husd, hfe, hfu, _, _, _⟩ :=
    settle_debt_ok_spec rate did uid now db debt hfind hinv hset re ru hr hfresh
  refine ⟨tx, db2, hok, hfe, hfu, heur, husd, ham, hcur, ?_⟩
  intro hne
  rw [heur]
  exact hne

/-- A rate oracle for GBP whose EUR rate (3) has drifted away from the rate
frozen in `debtGbp` (2). -/
def rateGbp : RateOracle := fun f t _ =>
  if f = "GBP" ∧ t = "EUR" then some 3
  else if f = "GBP" ∧ t = "USD" then some 4
  else none

/-- A 50.00 GBP debt frozen at creation-time rates 2 (EUR) and 12/5 (USD). -/
def debtGbp : Debt :=
  { id := 5, creditor_user_id := 1, debtor_user_id := 2, amount_minor := 5000,
    currency := "GBP", amount_eur := 100, amount_usd := 120,
    fx_rate_to_eur := 2, fx_rate_to_usd := 12 / 5, category_id := none,
    note := none, related_transaction_id := none, is_settled := false, created_at := 0 }

/-- A store holding just `debtGbp`. -/
def dbGbp : DB := { transactions := [], debts := [debtGbp], nextTxnId := 0, nextDebtId := 6 }

/-- Witness for C10 under rate drift: settling `debtGbp` at the current GBP
rate 3 yields a settlement valued at 150 EUR while the debt's frozen EUR
value is 100 — the two views disagree. -/
theorem settlement_recomputes_reference_witness :
    ∃ tx db2, settle_debt rateGbp 5 1 0 dbGbp = .ok (tx, db2) ∧
      tx.amount_eur = 150 ∧ tx.amount_eur ≠ debtGbp.amount_eur := by
  obtain ⟨tx, db2, hok, _, _, heur, _, _, _, hdis⟩ :=
    settlement_recomputes_reference rateGbp 5 1 0 dbGbp debtGbp (by rfl) (Or.inl rfl)
      rfl 3 4 (by rfl) (by simp [dbGbp])
  have h150 : tx.amount_eur = 150 := by
    rw [heur]
    norm_num [Debt.amount, debtGbp]
  refine ⟨tx, db2, hok, h150, ?_⟩
  have : debtGbp.amount * 3 ≠ debtGbp.amount_eur := by
    norm_num [Debt.amount, debtGbp]
  exact hdis this

/-- C2: `cancel_mutual_debts` marks settled exactly the debts
`calculate_net_debts` returned (every unsettled debt between the pair, via
the same filter), and creates exactly one new debt — denominated in the base
currency, for the absolute net amount, with the net-owing user as debtor and
the other as creditor — when and only when the absolute net amount exceeds
the fixed 0.01 threshold; within tolerance no debt is created and the store
gains no row. -/
theorem cancel_mutual_debts_correct (rate : RateOracle) (u1 u2 : Nat) (base : String)
    (now : Nat) (db : DB) (re ru : ℚ)
    (hr : get_rates_for_transaction rate base (dateOf now) = some (re, ru)) :
    ∃ r db2, cancel_mutual_debts rate u1 u2 base now db = .ok (r, db2) ∧
      r.1 = (calculate_net_debts u1 u2 base db).debts_to_cancel.map (fun d => d.id) ∧
      (¬ abs (calculate_net_debts u1 u2 base db).net_amount > 1 / 100 →
        r.2 = none ∧
        db2.debts = db.debts.map (fun d =>
          if mutualDebtFilter u1 u2 d then { d with is_settled := true } else d) ∧
        db2.transactions = db.transactions) ∧
      (abs (calculate_net_debts u1 u2 base db).net_amount > 1 / 100 →
        ∃ nd, r.2 = some nd ∧ nd.currency = base ∧ nd.is_settled = false ∧
          nd.amount_minor =
            to_minor_units (abs (calculate_net_debts u1 u2 base db).net_amount) ∧
          ((calculate_net_debts u1 u2 base db).net_amount > 0 →
            nd.creditor_user_id = u2 ∧ nd.debtor_user_id = u1) ∧
          (¬ (calculate_net_debts u1 u2 base db).net_amount > 0 →
            nd.creditor_user_id = u1 ∧ nd.debtor_user_id = u2) ∧
          db2.debts = db.debts.map (fun d =>
            if mutualDebtFilter u1 u2 d then { d with is_settled := true } else d)
              ++ [nd] ∧
          db2.transactions = db.transactions) := by
  unfold cancel_mutual_debts
  dsimp only
  by_cases hth : abs (calculate_net_debts u1 u2 base db).net_amount > 1 / 100
  · rw [if_pos hth]
    unfold create_debt
    rw [hr]
    dsimp only
    by_cases hpos : (calculate_net_debts u1 u2 base db).net_amount > 0
    · simp only [if_pos hpos]
      refine ⟨_, _, rfl, rfl, fun hc => absurd hth hc,
        fun _ => ⟨_, rfl, rfl, rfl, ?_, fun _ => ⟨rfl, rfl⟩, fun hc => absurd hpos hc,
          rfl, rfl⟩⟩
      rw [abs_of_pos hpos]
    · simp only [if_neg hpos]
      exact ⟨_, _, rfl, rfl, fun hc => absurd hth hc,
        fun _ => ⟨_, rfl, rfl, rfl, rfl, fun hp => absurd hp hpos, fun _ => ⟨rfl, rfl⟩,
          rfl, rfl⟩⟩
  · rw [if_neg hth]
    exact ⟨_, _, rfl, rfl, fun _ => ⟨rfl, rfl, rfl⟩, fun hc => absurd hc hth⟩

/-- Witness for C2 at the specification's example: with debts of 100 and 30
EUR-equivalents in opposite directions, cancellation creates exactly one new
70.00 EUR debt from user 1 (debtor) to user 2 (creditor). -/
theorem cancel_mutual_debts_correct_witness :
    ∃ r db2, cancel_mutual_debts rateEurUsd 1 2 "EUR" 0 dbNet = .ok (r, db2) ∧
      ∃ nd, r.2 = some nd ∧ nd.currency = "EUR" ∧ nd.amount_minor = 7000 ∧
        nd.creditor_user_id = 2 ∧ nd.debtor_user_id = 1 := by
  have hnet : (calculate_net_debts 1 2 "EUR" dbNet).net_amount = 70 := by
    simp [calculate_net_debts, netTotals, mutualDebtFilter, baseAmount, dbNet]
    norm_num
  obtain ⟨r, db2, hok, _, _, hbig⟩ :=
    cancel_mutual_debts_correct rateEurUsd 1 2 "EUR" 0 dbNet 1 (11 / 10) (by rfl)
  have hth : abs (calculate_net_debts 1 2 "EUR" dbNet).net_amount > 1 / 100 := by
    rw [hnet]
    norm_num
  have hpos : (calculate_net_debts 1 2 "EUR" dbNet).net_amount > 0 := by
    rw [hnet]
    norm_num
  obtain ⟨nd, hnd, hcur, _, hamt, hor, _, _, _⟩ := hbig hth
  have h7000 : nd.amount_minor = 7000 := by
    rw [hamt, abs_of_pos hpos, hnet]
    norm_num [to_minor_units, pyTrunc]
  obtain ⟨hc, hd⟩ := hor hpos
  exact ⟨r, db2, hok, nd, hnd, hcur, h7000, hc, hd⟩

/-- The fold `_get_from_db` uses to pick the latest row never forgets a
non-empty accumulator. -/
theorem pickLatest_ne_none (l : List FxRate) (b : FxRate) :
    l.foldl
      (fun acc r =>
        match acc with
        | none => some r
        | some b => if r.date > b.date then some r else acc)
      (some b) ≠ none := by
  induction l generalizing b with
  | nil => simp
  | cons a l ih =>
      rw [List.foldl_cons]
      dsimp only
      by_cases hd : a.date > b.date
      · rw [if_pos hd]
        exact ih a
      · rw [if_neg hd]
        exact ih b

/-- The latest-row fold returns an element of the list, or the accumulator. -/
theorem pickLatest_mem (l : List FxRate) :
    ∀ (acc : Option FxRate) (r : FxRate),
      l.foldl
        (fun acc r =>
          match acc with
          | none => some r
          | some b => if r.date > b.date then some r else acc)
        acc = some r → r ∈ l ∨ acc = some r := by
  induction l with
  | nil =>
      intro acc r h
      exact Or.inr h
  | cons a l ih =>
      intro acc r h
      rw [List.foldl_cons] at h
      rcases ih _ r h with hmem | hacc
      · exact Or.inl (List.mem_cons_of_mem a hmem)
      · cases acc with
        | none =>
            dsimp only at hacc
            exact Or.inl (by rw [Option.some.injEq] at hacc; rw [← hacc]; exact List.mem_cons_self a l)
        | some b =>
            dsimp only at hacc
            by_cases hd : a.date > b.date
            · rw [if_pos hd, Option.some.injEq] at hacc
              exact Or.inl (by rw [← hacc]; exact List.mem_cons_self a l)
            · rw [if_neg hd] at hacc
              exact Or.inr hacc

/-- `_get_from_db` misses exactly when the store holds no row for the pair
with date at most the target date. -/
theorem storeGet_eq_none_iff (st : FxState) (f t : String) (d : Nat) :
    storeGet st f t d = none ↔
      ∀ fr ∈ st.store, ¬(fr.currency = f ∧ fr.base = t ∧ fr.date ≤ d) := by
  unfold storeGet
  constructor
  · intro h fr hfr hc
    have hmem : fr ∈ st.store.filter
        (fun r => decide (r.currency = f ∧ r.base = t ∧ r.date ≤ d)) :=
      List.mem_filter.mpr ⟨hfr, by simpa using hc⟩
    rcases hflt : st.store.filter
        (fun r => decide (r.currency = f ∧ r.base = t ∧ r.date ≤ d)) with _ | ⟨a, l⟩
    · rw [hflt] at hmem
      simp at hmem
    · rw [hflt, List.foldl_cons] at h
      dsimp only at h
      exact pickLatest_ne_none l a h
  · intro h
    have hnil : st.store.filter
        (fun r => decide (r.currency = f ∧ r.base = t ∧ r.date ≤ d)) = [] := by
      rw [List.filter_eq_nil_iff]
      intro fr hfr
      simpa using h fr hfr
    rw [hnil]
    rfl

/-- A store hit of `_get_from_db` is a stored row. -/
theorem storeGet_mem (st : FxState) (f t : String) (d : Nat) (fr : FxRate)
    (h : storeGet st f t d = some fr) : fr ∈ st.store := by
  unfold storeGet at h
  rcases pickLatest_mem _ none fr h with hmem | hacc
  · exact (List.mem_filter.mp hmem).1
  · simp at hacc

/-- A cache hit of `_get_from_cache` is a cached value. -/
theorem cacheGet_mem (st : FxState) (f t : String) (d : Nat) (r : ℚ)
    (h : cacheGet st f t d = some r) : ∃ e ∈ st.cache, e.2.2.2 = r := by
  unfold cacheGet at h
  cases hf : st.cache.find?
      (fun e => decide (e.1 = f ∧ e.2.1 = t ∧ e.2.2.1 = d)) with
  | none =>
      rw [hf] at h
      simp at h
  | some e =>
      rw [hf] at h
      exact ⟨e, List.mem_of_find?_eq_some hf, by simpa using h⟩

/-- C8: `get_rate` returns exactly 1 on same-currency pairs (touching no
tier); for distinct currencies it raises RateUnavailable precisely when the
cache misses, the durable store holds no row for the pair with date ≤ the
target date, and the external API fails; and whenever any tier resolves, the
returned rate is the (positive, assuming all stored rates are positive) rate
that tier held — never a silent 1:1 default. -/
theorem get_rate_spec (f t : String) (d : Nat) (st : FxState) :
    (f = t → get_rate f t d st = .ok (1, st)) ∧
    (get_rate f t d st = .error .rateUnavailable ↔
      (f ≠ t ∧ cacheGet st f t d = none ∧
        (∀ fr ∈ st.store, ¬(fr.currency = f ∧ fr.base = t ∧ fr.date ≤ d)) ∧
        st.api f t = none)) ∧
    (st.positiveRates → ∀ r st2, get_rate f t d st = .ok (r, st2) → 0 < r) := by
  refine ⟨?_, ⟨?_, ?_⟩, ?_⟩
  · intro h
    unfold get_rate
    rw [if_pos h]
  · intro herr
    unfold get_rate at herr
    by_cases hft : f = t
    · rw [if_pos hft] at herr
      exact absurd herr (by simp)
    · rw [if_neg hft] at herr
      cases hc : cacheGet st f t d with
      | some r =>
          rw [hc] at herr
          simp at herr
      | none =>
          rw [hc] at herr
          cases hs : storeGet st f t d with
          | some fr =>
              rw [hs] at herr
              simp at herr
          | none =>
              rw [hs] at herr
              cases ha : st.api f t with
              | some r =>
                  rw [ha] at herr
                  simp at herr
              | none => exact ⟨hft, rfl, (storeGet_eq_none_iff st f t d).mp hs, rfl⟩
  · rintro ⟨hft, hc, hs, ha⟩
    unfold get_rate
    rw [if_neg hft, hc, (storeGet_eq_none_iff st f t d).mpr hs, ha]
  · intro hp r st2 hok
    have hcache := hp.1
    have hstore := hp.2.1
    have hapi := hp.2.2
    unfold get_rate at hok
    by_cases hft : f = t
    · rw [if_pos hft] at hok
      simp only [Except.ok.injEq, Prod.mk.injEq] at hok
      rw [← hok.1]
      norm_num
    · rw [if_neg hft] at hok
      cases hc : cacheGet st f t d with
      | some rc =>
          rw [hc] at hok
          simp only [Except.ok.injEq, Prod.mk.injEq] at hok
          obtain ⟨e, he, hre⟩ := cacheGet_mem st f t d rc hc
          rw [← hok.1, ← hre]
          exact hcache e he
      | none =>
          rw [hc] at hok
          cases hs : storeGet st f t d with
          | some fr =>
              rw [hs] at hok
              simp only [Except.ok.injEq, Prod.mk.injEq] at hok
              rw [← hok.1]
              exact hstore fr (storeGet_mem st f t d fr hs)
          | none =>
              rw [hs] at hok
              cases ha : st.api f t with
              | some ra =>
                  rw [ha] at hok
                  simp only [Except.ok.injEq, Prod.mk.injEq] at hok
                  rw [← hok.1]
                  exact hapi f t ra ha
              | none =>
                  rw [ha] at hok
                  exact absurd hok (by simp)

/-- A concrete rate state: one durable USD→EUR row, empty cache, dead API. -/
def stW : FxState :=
  { cache := [], store := [{ currency := "USD", base := "EUR", rate := 9 / 10, date := 5 }],
    api := fun _ _ => none }

/-- Witness for C8: a same-currency lookup returns exactly 1 without touching
the state, and a GBP→EUR lookup on `stW` — cache empty, no GBP row in the
store, API failing — raises RateUnavailable. -/
theorem get_rate_spec_witness :
    get_rate "EUR" "EUR" 10 stW = .ok (1, stW) ∧
    get_rate "GBP" "EUR" 10 stW = .error .rateUnavailable := by
  refine ⟨(get_rate_spec "EUR" "EUR" 10 stW).1 rfl, ?_⟩
  refine (get_rate_spec "GBP" "EUR" 10 stW).2.1.mpr ⟨by decide, rfl, ?_, rfl⟩
  intro fr hfr
  simp only [stW, List.mem_singleton] at hfr
  rw [hfr]
  rintro ⟨ha, _⟩
  exact absurd ha (by decide)

end Ledger